import Mathlib

/-!
Shallow embedding of `scripts/manage.py` (bpy-binaries build orchestration).

The script's observable behaviour is modelled as explicit state passing over
a `Sys` record (process-wide working directory, filesystem paths that exist,
emitted log records, number of subprocess spawns, root-logger configuration).
External process execution and the clock are supplied by a `World` oracle.
Fallible Python code is modelled with `Except PyErr`.
-/

/-- Python logging severity levels used by the script. -/
inductive Level
  | debug
  | info
  | warning
  | error
deriving DecidableEq

/-- One emitted log record: severity, format string, interpolated arguments
(rendered as strings), and whether exception info was attached
(`logging.exception` sets it). -/
structure LogRecord where
  level : Level
  fmt : String
  args : List String
  excInfo : Bool
deriving DecidableEq

/-- A logging sink: a file handler with its path, or the console stream handler. -/
inductive Sink
  | file (path : String)
  | stream
deriving DecidableEq

/-- A configured logging handler: its sink and its level threshold. -/
structure Handler where
  sink : Sink
  level : Level
deriving DecidableEq

/-- Exceptions the script can raise: the distinguished
`UnexpectedReturnCodeError` (a `ValueError` subclass carrying the actual exit
code), and any other OS-level error (`FileNotFoundError` from `subprocess`,
errors from `os.chdir`, `FileExistsError` from `shutil.copytree`, ...). -/
inductive PyErr
  | unexpectedReturnCode (code : Int)
  | osError (msg : String)
deriving DecidableEq

/-- Result of `subprocess.run` with captured output (already decoded). -/
structure CompletedProcess where
  returncode : Int
  stdout : String
  stderr : String
deriving DecidableEq

/-- The process-wide mutable state the script manipulates. -/
structure Sys where
  /-- current working directory (`os.getcwd` / `Path.cwd`) -/
  cwd : String
  /-- set of filesystem paths that exist (directories and files) -/
  fs : List String
  /-- log records emitted so far, oldest first -/
  log : List LogRecord
  /-- how many subprocesses have been spawned -/
  execCount : Nat
  /-- root logger level -/
  rootLevel : Level
  /-- root logger handlers, in attachment order -/
  handlers : List Handler
  /-- `shutil.copytree` calls performed, as (source, destination) pairs -/
  copies : List (String × String)
deriving DecidableEq

/-- The external world: whether `os.chdir` to a path succeeds, what a spawned
process does (as a function of argument vector and working directory), the
current local timestamp in ISO format, and the fresh temporary-directory name
chosen for a given suffix. -/
structure World where
  dirOk : String → Bool
  exec : List String → String → Except PyErr CompletedProcess
  now : String
  tmpName : String → String

/-- State-passing computations that may raise: the state is kept on both the
normal and the raising path (a Python exception does not undo side effects). -/
abbrev M (α : Type) : Type := Sys → Except PyErr α × Sys

/-- Sequencing with exception short-circuiting (state survives the raise). -/
def mBind {α β : Type} (x : M α) (f : α → M β) : M β := fun s =>
  match x s with
  | (Except.ok a, s') => f a s'
  | (Except.error e, s') => (Except.error e, s')

/-- Lift a pure state update into `M`. -/
def mState (f : Sys → Sys) : M Unit := fun s => (Except.ok (), f s)

/-- `Path.mkdir(parents=True, exist_ok=True)`: create a directory if absent. -/
def mkdirFS (path : String) (s : Sys) : Sys :=
  if path ∈ s.fs then s else { s with fs := path :: s.fs }

/-- Creating a file (e.g. `logging.FileHandler` opening its log file). -/
def touchFS (path : String) (s : Sys) : Sys :=
  if path ∈ s.fs then s else { s with fs := path :: s.fs }

/-- Append one record to the log. -/
def appendLog (r : LogRecord) (s : Sys) : Sys := { s with log := s.log ++ [r] }

/-- `logging.debug(text)`. -/
def logDebugRecord (text : String) (s : Sys) : Sys :=
  appendLog ⟨Level.debug, text, [], false⟩ s

/-- `shutil.copytree(src, dst)`: raises `FileExistsError` when the destination
already exists, otherwise records the copy and creates the destination. -/
def copytreeFS (src dst : String) : M Unit := fun s =>
  if dst ∈ s.fs then (Except.error (PyErr.osError "FileExistsError"), s)
  else (Except.ok (), { s with fs := dst :: s.fs, copies := s.copies ++ [(src, dst)] })

/-- The `try` block of `run_command`, entered with the directory already
changed (`s1.cwd` is the requested working directory): spawn the process, log
its decoded stderr and stdout at debug level, and raise
`UnexpectedReturnCodeError(returncode)` when the exit code differs from
`expect_code`. -/
def runCommandBody (w : World) (args : List String) (expect_code : Int)
    (s1 : Sys) : Except PyErr CompletedProcess × Sys :=
  match w.exec args s1.cwd with
  | Except.error e => (Except.error e, { s1 with execCount := s1.execCount + 1 })
  | Except.ok p =>
    let s3 := logDebugRecord p.stdout
      (logDebugRecord p.stderr { s1 with execCount := s1.execCount + 1 })
    if p.returncode ≠ expect_code then
      (Except.error (PyErr.unexpectedReturnCode p.returncode), s3)
    else
      (Except.ok p, s3)

/-- `run_command(args, work_dir=..., expect_code=...)` from `scripts/manage.py`:
record the current directory, `os.chdir` into `work_dir`, then run the `try`
block; the `finally` block restores the starting directory on every path out
of the `try`. A failing `os.chdir` (before the `try`) raises without having
changed the directory. -/
def run_command (w : World) (args : List String) (work_dir : String)
    (expect_code : Int) : M CompletedProcess := fun s =>
  if w.dirOk work_dir then
    ((runCommandBody w args expect_code { s with cwd := work_dir }).1,
     { (runCommandBody w args expect_code { s with cwd := work_dir }).2 with cwd := s.cwd })
  else
    (Except.error (PyErr.osError "chdir failed"), s)

/-- A parsed `packaging.version.Version`: its canonical string form and its
major/minor release numbers (the only pieces the script reads). -/
structure Version where
  text : String
  major : Nat
  minor : Nat
deriving DecidableEq

/-- `create_process_name` from `scripts/manage.py`. -/
def create_process_name (blender python : Version) : String :=
  "blender-git-" ++ blender.text ++ "-" ++ python.text

/-- `configure_logger` from `scripts/manage.py`: set the root logger to DEBUG,
clear its handlers, create `log/build` under the current directory, create a
log file named from the current timestamp and both versions, attach a DEBUG
file handler for it and then a WARNING stream handler. -/
def configure_logger (w : World) (blender python : Version) (s : Sys) : Sys :=
  let s1 : Sys := { s with rootLevel := Level.debug, handlers := [] }
  let log_directory := s.cwd ++ "/log/build"
  let s2 := mkdirFS log_directory s1
  let log_file_path :=
    log_directory ++ "/" ++ w.now ++ "_" ++ blender.text ++ "_" ++ python.text ++ ".log"
  let s3 := touchFS log_file_path s2
  { s3 with handlers :=
      s3.handlers ++ [⟨Sink.file log_file_path, Level.debug⟩, ⟨Sink.stream, Level.warning⟩] }

/-- The subdirectory name `f"bpy_{blender}_{python_version}"` used for the
build artifact (from `_build`, line 133). -/
def bpy_dir_name (blender_text python_text : String) : String :=
  "bpy_" ++ blender_text ++ "_" ++ python_text

/-- The Build Task's destination artifact path:
`invocation_directory / "dist" / f"bpy_{blender}_{python_version}"`. -/
def buildDestPath (invocation_dir blender_text python_text : String) : String :=
  invocation_dir ++ "/dist/" ++ bpy_dir_name blender_text python_text

/-- The canonical string of a `packaging.version.Version` never contains an
underscore (normalisation maps all separators to `.` and renders
pre/post/dev/local segments without `_`). -/
def underscoreFree (t : String) : Prop := '_' ∉ t.data

instance (t : String) : Decidable (underscoreFree t) :=
  inferInstanceAs (Decidable ('_' ∉ t.data))

/-- The `logging.info("Elapsed time %.2f", ...)` record `_build` emits at the
end of its success path (the float argument is time-dependent, not modelled). -/
def elapsedRecord : LogRecord := ⟨Level.info, "Elapsed time %.2f", [], false⟩

/-- The command steps of `_build` between the work-area creation and the final
elapsed-time log, in source order: git clone into the work area, create the
`lib` and `build_linux_bpy` subdirectories, svn checkout of the platform
libraries, git checkout of the version tag, `make update`, `cmake` with the
Python version, `make bpy`, create `dist` under the invocation directory, and
copy the built artifact tree to its versioned destination. -/
def buildSteps (w : World) (blender python : Version)
    (invocation_directory work_path : String) : M Unit :=
  mBind (run_command w ["git", "clone", "https://github.com/blender/blender"] work_path 0)
    (fun _ =>
  mBind (mState (mkdirFS (work_path ++ "/lib"))) (fun _ =>
  mBind (mState (mkdirFS (work_path ++ "/build_linux_bpy"))) (fun _ =>
  mBind (run_command w
      ["svn", "checkout",
       "https://svn.blender.org/svnroot/bf-blender/trunk/lib/linux_x86_64_glibc_228"]
      (work_path ++ "/lib") 0) (fun _ =>
  mBind (run_command w ["git", "checkout", "v" ++ blender.text] (work_path ++ "/blender") 0)
    (fun _ =>
  mBind (run_command w ["make", "update"] (work_path ++ "/blender") 0) (fun _ =>
  mBind (run_command w
      ["cmake", "-DPYTHON_VERSION=" ++ python.text, work_path ++ "/blender"]
      (work_path ++ "/build_linux_bpy") 0) (fun _ =>
  mBind (run_command w ["make", "bpy"] (work_path ++ "/blender") 0) (fun _ =>
  mBind (mState (mkdirFS (invocation_directory ++ "/dist"))) (fun _ =>
  copytreeFS (work_path ++ "/build_linux_bpy/bin/bpy")
    (buildDestPath invocation_directory blender.text python.text))))))))))

/-- `_build` from `scripts/manage.py`: record the invocation directory,
configure the logger, create the temporary work area
(`TemporaryDirectory(suffix=process_name)` — never entered as a context
manager and never explicitly cleaned up), run the build steps, and log the
elapsed time on the success path. The work-area directory is created and
never removed by any instruction of the function. -/
def _build (w : World) (blender python : Version) : M Unit := fun s0 =>
  let work_path := w.tmpName (create_process_name blender python)
  (mBind (mState (fun s => mkdirFS work_path (configure_logger w blender python s))) (fun _ =>
   mBind (buildSteps w blender python s0.cwd work_path) (fun _ =>
   mState (appendLog elapsedRecord)))) s0

/-- The per-task outcome record the `build` orchestrator logs: index, both
versions, and failed (via `logging.exception`) or succeeded (`logging.info`). -/
def taskRecord (i : Nat) (blender python : Version) (r : Except PyErr Unit) : LogRecord :=
  match r with
  | Except.error _ =>
    ⟨Level.error, "Task %d Blender %s Python %s failed.",
     [toString i, blender.text, python.text], true⟩
  | Except.ok _ =>
    ⟨Level.info, "Task %d Blender %s Python %s succeeded.",
     [toString i, blender.text, python.text], false⟩

/-- The collection loop of the `build` command: for each submitted task, in
submission order, wait for its result, catch any exception, and log one
outcome record for its index. Each worker process starts from the parent
state `s`. -/
def buildCollect (w : World) (blender : Version) (s : Sys) :
    Nat → List Version → List LogRecord
  | _, [] => []
  | i, pv :: rest =>
    taskRecord i blender pv ((_build w blender pv) s).1 :: buildCollect w blender s (i + 1) rest

/-- The `build` CLI command: submit one `_build` task per requested Python
version to the process pool, then collect and log every outcome. -/
def build (w : World) (blender : Version) (pythons : List Version) (s : Sys) :
    List LogRecord :=
  buildCollect w blender s 0 pythons

/-- The argument vector `_test` passes to the Command Runner:
`tox -e py<maj><min> -- bpy-<blender>-cp<maj><min>-none-<system>.whl`. -/
def toxArgs (blender python : Version) (system : String) : List String :=
  let py_tag := "py" ++ toString python.major ++ toString python.minor
  let cp_tag := "cp" ++ toString python.major ++ toString python.minor
  ["tox", "-e", py_tag, "--",
   "bpy-" ++ blender.text ++ "-" ++ cp_tag ++ "-none-" ++ system ++ ".whl"]

/-- `_test` from `scripts/manage.py`: configure the logger, run the tox
command in the current directory, catch `UnexpectedReturnCodeError` only —
logging it via `logging.exception` with the carried exit code — and on the
no-exception path log at warning level that the run finished with code 0.
Any other exception propagates. -/
def _test (w : World) (blender python : Version) (system : String) : M Unit := fun s0 =>
  let s1 := configure_logger w blender python s0
  match run_command w (toxArgs blender python system) s1.cwd 0 s1 with
  | (Except.error (PyErr.unexpectedReturnCode c), s2) =>
    (Except.ok (),
     appendLog ⟨Level.error,
       "Testing Blender %s Python %s System %s finished with code %d",
       [blender.text, python.text, system, toString c], true⟩ s2)
  | (Except.error e, s2) => (Except.error e, s2)
  | (Except.ok _, s2) =>
    (Except.ok (),
     appendLog ⟨Level.warning,
       "Testing Blender %s Python %s System %s finished with code 0",
       [blender.text, python.text, system], false⟩ s2)

/-- Concrete Blender version `2.93.0` for evaluating the model. -/
def bV : Version := ⟨"2.93.0", 2, 93⟩

/-- Concrete Python version `3.9.7` for evaluating the model. -/
def pV : Version := ⟨"3.9.7", 3, 9⟩

/-- A second concrete Python version `3.10.2`. -/
def pV2 : Version := ⟨"3.10.2", 3, 10⟩

/-- A process that exited with code 0. -/
def procOk : CompletedProcess := ⟨0, "", ""⟩

/-- A process that exited with code 1. -/
def procFail : CompletedProcess := ⟨1, "", ""⟩

/-- A process that exited with code 42. -/
def proc42 : CompletedProcess := ⟨42, "", ""⟩

/-- A world where every directory exists and every command exits 0. -/
def wOk : World :=
  ⟨fun _ => true, fun _ _ => Except.ok procOk, "2023-05-01T10:00:00",
   fun sfx => "/tmp/tmpabc" ++ sfx⟩

/-- A world where every command exits 1. -/
def wFail : World :=
  ⟨fun _ => true, fun _ _ => Except.ok procFail, "2023-05-01T10:00:00",
   fun sfx => "/tmp/tmpabc" ++ sfx⟩

/-- A world where every command exits 42. -/
def w42 : World :=
  ⟨fun _ => true, fun _ _ => Except.ok proc42, "2023-05-01T10:00:00",
   fun sfx => "/tmp/tmpabc" ++ sfx⟩

/-- A world where spawning any command raises `FileNotFoundError` (e.g. the
executable is absent). -/
def wErr : World :=
  ⟨fun _ => true, fun _ _ => Except.error (PyErr.osError "FileNotFoundError"),
   "2023-05-01T10:00:00", fun sfx => "/tmp/tmpabc" ++ sfx⟩

/-- An initial process state: invoked from `/repo`, empty filesystem model,
no logs, default WARNING root logger with no handlers. -/
def sInit : Sys := ⟨"/repo", [], [], 0, Level.warning, [], []⟩

theorem mkdirFS_self_mem (path : String) (s : Sys) : path ∈ (mkdirFS path s).fs := by
  unfold mkdirFS
  split
  · assumption
  · exact List.mem_cons_self path s.fs

theorem mkdirFS_mono (path q : String) (s : Sys) (h : q ∈ s.fs) :
    q ∈ (mkdirFS path s).fs := by
  unfold mkdirFS
  split
  · exact h
  · exact List.mem_cons_of_mem path h

theorem touchFS_mono (path q : String) (s : Sys) (h : q ∈ s.fs) :
    q ∈ (touchFS path s).fs := by
  unfold touchFS
  split
  · exact h
  · exact List.mem_cons_of_mem path h

theorem mkdirFS_cwd (path : String) (s : Sys) : (mkdirFS path s).cwd = s.cwd := by
  unfold mkdirFS
  split <;> rfl

theorem touchFS_cwd (path : String) (s : Sys) : (touchFS path s).cwd = s.cwd := by
  unfold touchFS
  split <;> rfl

theorem configure_logger_cwd (w : World) (blender python : Version) (s : Sys) :
    (configure_logger w blender python s).cwd = s.cwd := by
  unfold configure_logger
  simp [touchFS_cwd, mkdirFS_cwd]

theorem configure_logger_fs_mono (w : World) (blender python : Version) (s : Sys)
    (q : String) (h : q ∈ s.fs) : q ∈ (configure_logger w blender python s).fs := by
  unfold configure_logger
  simp only []
  apply touchFS_mono
  apply mkdirFS_mono
  exact h

theorem mkdirFS_log (path : String) (s : Sys) : (mkdirFS path s).log = s.log := by
  unfold mkdirFS
  split <;> rfl

theorem touchFS_log (path : String) (s : Sys) : (touchFS path s).log = s.log := by
  unfold touchFS
  split <;> rfl

theorem configure_logger_log (w : World) (blender python : Version) (s : Sys) :
    (configure_logger w blender python s).log = s.log := by
  unfold configure_logger
  simp [touchFS_log, mkdirFS_log]

theorem runCommandBody_fs (w : World) (args : List String) (ec : Int) (s1 : Sys) :
    (runCommandBody w args ec s1).2.fs = s1.fs := by
  unfold runCommandBody
  cases w.exec args s1.cwd with
  | error e => rfl
  | ok p =>
    dsimp only
    split <;> rfl

theorem runCommandBody_cwd (w : World) (args : List String) (ec : Int) (s1 : Sys) :
    (runCommandBody w args ec s1).2.cwd = s1.cwd := by
  unfold runCommandBody
  cases w.exec args s1.cwd with
  | error e => rfl
  | ok p =>
    dsimp only
    split <;> rfl

theorem run_command_fs (w : World) (args : List String) (d : String) (ec : Int) (s : Sys) :
    ((run_command w args d ec) s).2.fs = s.fs := by
  unfold run_command
  split
  · exact runCommandBody_fs w args ec { s with cwd := d }
  · rfl

theorem run_command_cwd (w : World) (args : List String) (d : String) (ec : Int) (s : Sys) :
    ((run_command w args d ec) s).2.cwd = s.cwd := by
  unfold run_command
  split <;> rfl

/-- Filesystem-path preservation: no path existing before the computation is
removed by it. -/
def FsPres {α : Type} (x : M α) : Prop :=
  ∀ s q, q ∈ s.fs → q ∈ (x s).2.fs

theorem mBind_fsPres {α β : Type} {x : M α} {f : α → M β}
    (hx : FsPres x) (hf : ∀ a, FsPres (f a)) : FsPres (mBind x f) := by
  intro s q h
  unfold mBind
  cases hr : x s with
  | mk r s' =>
    have hs' : q ∈ s'.fs := by
      have := hx s q h
      rw [hr] at this
      exact this
    cases r with
    | ok a => exact hf a s' q hs'
    | error e => exact hs'

theorem mState_fsPres {f : Sys → Sys} (hf : ∀ s q, q ∈ s.fs → q ∈ (f s).fs) :
    FsPres (mState f) := by
  intro s q h
  exact hf s q h

theorem run_command_fsPres (w : World) (args : List String) (d : String) (ec : Int) :
    FsPres (run_command w args d ec) := by
  intro s q h
  rw [run_command_fs]
  exact h

theorem copytreeFS_fsPres (src dst : String) : FsPres (copytreeFS src dst) := by
  intro s q h
  unfold copytreeFS
  split
  · exact h
  · exact List.mem_cons_of_mem dst h

theorem appendLog_fs (r : LogRecord) (s : Sys) : (appendLog r s).fs = s.fs := rfl

theorem buildSteps_fsPres (w : World) (blender python : Version)
    (invocation_directory work_path : String) :
    FsPres (buildSteps w blender python invocation_directory work_path) := by
  unfold buildSteps
  apply mBind_fsPres (run_command_fsPres _ _ _ _)
  intro _
  apply mBind_fsPres (mState_fsPres (fun s q h => mkdirFS_mono _ q s h))
  intro _
  apply mBind_fsPres (mState_fsPres (fun s q h => mkdirFS_mono _ q s h))
  intro _
  apply mBind_fsPres (run_command_fsPres _ _ _ _)
  intro _
  apply mBind_fsPres (run_command_fsPres _ _ _ _)
  intro _
  apply mBind_fsPres (run_command_fsPres _ _ _ _)
  intro _
  apply mBind_fsPres (run_command_fsPres _ _ _ _)
  intro _
  apply mBind_fsPres (run_command_fsPres _ _ _ _)
  intro _
  apply mBind_fsPres (mState_fsPres (fun s q h => mkdirFS_mono _ q s h))
  intro _
  exact copytreeFS_fsPres _ _

/-- Inversion for a successful `mBind`. -/
theorem mBind_ok_inv {α β : Type} {x : M α} {f : α → M β} {s : Sys} {b : β}
    (h : ((mBind x f) s).1 = Except.ok b) :
    ∃ a s', x s = (Except.ok a, s') ∧ (mBind x f) s = f a s' := by
  cases hr : x s with
  | mk r s' =>
    cases r with
    | ok a =>
      refine ⟨a, s', rfl, ?_⟩
      unfold mBind
      rw [hr]
    | error e =>
      exfalso
      unfold mBind at h
      rw [hr] at h
      simp at h

/-- Claim C4: for every invocation of `run_command`, the process-wide current
working directory after the call equals the current working directory before
the call, on the success exit path and on every failure exit path (unexpected
exit code, an exception raised while running the command, or a failing
`os.chdir`). -/
theorem run_command_restores_cwd (w : World) (args : List String) (work_dir : String)
    (expect_code : Int) (s : Sys) :
    ((run_command w args work_dir expect_code) s).2.cwd = s.cwd :=
  run_command_cwd w args work_dir expect_code s

/-- Claim C1: when the spawned process runs and exits with some code,
`run_command` raises `UnexpectedReturnCodeError` carrying the actual exit
code if and only if that code differs from `expect_code`; when the codes
match it returns the completed process normally; and exactly one process is
spawned (no retry). -/
theorem run_command_unexpected_code_iff (w : World) (args : List String)
    (work_dir : String) (expect_code : Int) (s : Sys) (p : CompletedProcess)
    (hdir : w.dirOk work_dir = true)
    (hexec : w.exec args work_dir = Except.ok p) :
    (((run_command w args work_dir expect_code) s).1 =
        Except.error (PyErr.unexpectedReturnCode p.returncode) ↔
      p.returncode ≠ expect_code) ∧
    (p.returncode = expect_code →
      ((run_command w args work_dir expect_code) s).1 = Except.ok p) ∧
    ((run_command w args work_dir expect_code) s).2.execCount = s.execCount + 1 := by
  by_cases hc : p.returncode = expect_code <;>
    simp [run_command, runCommandBody, hdir, hexec, hc, logDebugRecord, appendLog]

/-- Witness for C1: a command exiting 1 with expected code 0 raises the
distinguished error carrying 1, after exactly one spawn. -/
theorem run_command_unexpected_code_iff_witness :
    wFail.dirOk "/w" = true ∧
    wFail.exec ["false"] "/w" = Except.ok procFail ∧
    procFail.returncode ≠ 0 ∧
    ((run_command wFail ["false"] "/w" 0) sInit).1 =
      Except.error (PyErr.unexpectedReturnCode procFail.returncode) ∧
    ((run_command wFail ["false"] "/w" 0) sInit).2.execCount = sInit.execCount + 1 := by
  refine ⟨rfl, rfl, by decide, ?_, ?_⟩
  · exact ((run_command_unexpected_code_iff wFail ["false"] "/w" 0 sInit procFail
      rfl rfl).1).mpr (by decide)
  · exact (run_command_unexpected_code_iff wFail ["false"] "/w" 0 sInit procFail
      rfl rfl).2.2

/-- Claim C2: whatever exit code the tox runner returns, `_test` returns
normally — a non-matching exit code raises `UnexpectedReturnCodeError`
inside `run_command`, which `_test` catches and logs. -/
theorem test_returns_normally_on_any_exit_code (w : World) (blender python : Version)
    (system : String) (s : Sys) (p : CompletedProcess)
    (hdir : w.dirOk s.cwd = true)
    (hexec : w.exec (toxArgs blender python system) s.cwd = Except.ok p) :
    ((_test w blender python system) s).1 = Except.ok () := by
  by_cases hc : p.returncode = 0 <;>
    simp [_test, run_command, runCommandBody, configure_logger_cwd, hdir, hexec, hc,
      logDebugRecord, appendLog]

/-- Witness for C2: the runner exiting 42 still lets `_test` return normally. -/
theorem test_returns_normally_witness :
    w42.dirOk sInit.cwd = true ∧
    w42.exec (toxArgs bV pV "manylinux") sInit.cwd = Except.ok proc42 ∧
    ((_test w42 bV pV "manylinux") sInit).1 = Except.ok () :=
  ⟨rfl, rfl, test_returns_normally_on_any_exit_code w42 bV pV "manylinux" sInit proc42 rfl rfl⟩

/-- Counterexample to C6 as stated: when the runner exits 42, the record
`_test` emits on the failure path is produced by `logging.exception`, i.e. at
ERROR severity, not at WARNING severity. -/
theorem test_failure_log_severity_counterexample :
    ((_test w42 bV pV "manylinux") sInit).2.log.getLast? =
      some ⟨Level.error,
        "Testing Blender %s Python %s System %s finished with code %d",
        ["2.93.0", "3.9.7", "manylinux", "42"], true⟩ ∧
    Level.error ≠ Level.warning := by
  exact ⟨rfl, by decide⟩

/-- Claim C6 (amended): when the runner exits with a non-expected code, the
failure is logged via `logging.exception` — ERROR severity with exception
info — and the log record includes the actual exit code the runner returned
(the WARNING-severity record belongs to the success path instead). -/
theorem test_failure_logged_error_with_code (w : World) (blender python : Version)
    (system : String) (s : Sys) (p : CompletedProcess)
    (hdir : w.dirOk s.cwd = true)
    (hexec : w.exec (toxArgs blender python system) s.cwd = Except.ok p)
    (hcode : p.returncode ≠ 0) :
    ((_test w blender python system) s).2.log.getLast? =
      some ⟨Level.error,
        "Testing Blender %s Python %s System %s finished with code %d",
        [blender.text, python.text, system, toString p.returncode], true⟩ := by
  simp [_test, run_command, runCommandBody, configure_logger_cwd, hdir, hexec, hcode,
    logDebugRecord, appendLog, List.getLast?_concat]

/-- Witness for the amended C6: runner exits 1 — the last record is the
ERROR-severity exception record carrying "1". -/
theorem test_failure_logged_error_with_code_witness :
    wFail.dirOk sInit.cwd = true ∧
    wFail.exec (toxArgs bV pV "manylinux") sInit.cwd = Except.ok procFail ∧
    procFail.returncode ≠ 0 ∧
    ((_test wFail bV pV "manylinux") sInit).2.log.getLast? =
      some ⟨Level.error,
        "Testing Blender %s Python %s System %s finished with code %d",
        [bV.text, pV.text, "manylinux", toString procFail.returncode], true⟩ :=
  ⟨rfl, rfl, by decide,
   test_failure_logged_error_with_code wFail bV pV "manylinux" sInit procFail rfl rfl
     (by decide)⟩

/-- Claim C10: `_test`'s handler catches only `UnexpectedReturnCodeError`;
any other exception produced while invoking the runner propagates out of
`_test` to the caller. -/
theorem test_propagates_non_exit_code_errors (w : World) (blender python : Version)
    (system : String) (s : Sys) (e : PyErr)
    (hrun : ((run_command w (toxArgs blender python system)
        (configure_logger w blender python s).cwd 0)
        (configure_logger w blender python s)).1 = Except.error e)
    (he : ∀ c : Int, e ≠ PyErr.unexpectedReturnCode c) :
    ((_test w blender python system) s).1 = Except.error e := by
  unfold _test
  dsimp only
  cases hr : run_command w (toxArgs blender python system)
      (configure_logger w blender python s).cwd 0 (configure_logger w blender python s) with
  | mk r s2 =>
    rw [hr] at hrun
    simp only at hrun
    subst hrun
    cases e with
    | unexpectedReturnCode c => exact absurd rfl (he c)
    | osError m => rfl

/-- Witness for C10: the tox executable being absent (`FileNotFoundError`)
propagates out of `_test`. -/
theorem test_propagates_non_exit_code_errors_witness :
    ((run_command wErr (toxArgs bV pV "manylinux")
        (configure_logger wErr bV pV sInit).cwd 0)
        (configure_logger wErr bV pV sInit)).1 =
      Except.error (PyErr.osError "FileNotFoundError") ∧
    ((_test wErr bV pV "manylinux") sInit).1 =
      Except.error (PyErr.osError "FileNotFoundError") :=
  ⟨rfl, test_propagates_non_exit_code_errors wErr bV pV "manylinux" sInit
    (PyErr.osError "FileNotFoundError") rfl (fun _ h => PyErr.noConfusion h)⟩

theorem mkdirFS_rootLevel (path : String) (s : Sys) :
    (mkdirFS path s).rootLevel = s.rootLevel := by
  unfold mkdirFS
  split <;> rfl

theorem touchFS_rootLevel (path : String) (s : Sys) :
    (touchFS path s).rootLevel = s.rootLevel := by
  unfold touchFS
  split <;> rfl

theorem mkdirFS_handlers (path : String) (s : Sys) :
    (mkdirFS path s).handlers = s.handlers := by
  unfold mkdirFS
  split <;> rfl

theorem touchFS_handlers (path : String) (s : Sys) :
    (touchFS path s).handlers = s.handlers := by
  unfold touchFS
  split <;> rfl

theorem touchFS_self_mem (path : String) (s : Sys) : path ∈ (touchFS path s).fs := by
  unfold touchFS
  split
  · assumption
  · exact List.mem_cons_self path s.fs

/-- Claim C9: for every VersionPair, `configure_logger` sets the root logger
to DEBUG, creates the log directory if absent, creates a log file whose name
is determined by the current timestamp and the two versions, and attaches
exactly two sinks: a DEBUG-level file sink (so every severity reaches the
file) and a WARNING-level console sink. -/
theorem configure_logger_two_sinks (w : World) (blender python : Version) (s : Sys) :
    (configure_logger w blender python s).rootLevel = Level.debug ∧
    (s.cwd ++ "/log/build") ∈ (configure_logger w blender python s).fs ∧
    ((s.cwd ++ "/log/build") ++ "/" ++ w.now ++ "_" ++ blender.text ++ "_" ++
        python.text ++ ".log") ∈ (configure_logger w blender python s).fs ∧
    (configure_logger w blender python s).handlers =
      [⟨Sink.file ((s.cwd ++ "/log/build") ++ "/" ++ w.now ++ "_" ++ blender.text ++ "_" ++
          python.text ++ ".log"), Level.debug⟩,
       ⟨Sink.stream, Level.warning⟩] := by
  refine ⟨?_, ?_, ?_, ?_⟩
  · simp [configure_logger, touchFS_rootLevel, mkdirFS_rootLevel]
  · unfold configure_logger
    dsimp only
    exact touchFS_mono _ _ _ (mkdirFS_self_mem _ _)
  · unfold configure_logger
    dsimp only
    exact touchFS_self_mem _ _
  · simp [configure_logger, touchFS_handlers, mkdirFS_handlers]

theorem appendLog_fsPres (r : LogRecord) : FsPres (mState (appendLog r)) := by
  intro s q h
  exact h

/-- Claim C3 assessment: `_build` creates its work area and then no
instruction of the task ever removes it — on the success path and on every
failure path the directory is still present when the task ends. In the
source the `TemporaryDirectory` is neither entered as a context manager nor
explicitly cleaned up (contrast `_package`, which uses
`with TemporaryDirectory()`), so removal is left to interpreter
finalization rather than performed by the task. -/
theorem build_workarea_never_removed (w : World) (blender python : Version) (s : Sys) :
    w.tmpName (create_process_name blender python) ∈ ((_build w blender python) s).2.fs := by
  have h1 : ((_build w blender python) s) =
      (mBind (buildSteps w blender python s.cwd
          (w.tmpName (create_process_name blender python)))
        (fun _ => mState (appendLog elapsedRecord)))
        (mkdirFS (w.tmpName (create_process_name blender python))
          (configure_logger w blender python s)) := rfl
  rw [h1]
  exact mBind_fsPres (buildSteps_fsPres w blender python s.cwd _)
    (fun _ => appendLog_fsPres elapsedRecord) _ _ (mkdirFS_self_mem _ _)

/-- Counterexample to C8 as stated: in a world where the first build step
(`git clone`) exits 1, `_build` raises the distinguished error and its log
contains no elapsed-time record — so elapsed time is not recorded on the
failure exit. -/
theorem build_elapsed_missing_on_failure_counterexample :
    ((_build wFail bV pV) sInit).1 = Except.error (PyErr.unexpectedReturnCode 1) ∧
    elapsedRecord ∉ ((_build wFail bV pV) sInit).2.log := by
  exact ⟨rfl, by decide⟩

/-- Claim C8 (amended): elapsed wall-clock time is computed and recorded only
on the success path — whenever `_build` returns normally its log contains the
elapsed-time record (and, per the counterexample, a failing run records
none). -/
theorem build_elapsed_logged_on_success (w : World) (blender python : Version) (s : Sys)
    (h : ((_build w blender python) s).1 = Except.ok ()) :
    elapsedRecord ∈ ((_build w blender python) s).2.log := by
  have h1 : ((_build w blender python) s) =
      (mBind (buildSteps w blender python s.cwd
          (w.tmpName (create_process_name blender python)))
        (fun _ => mState (appendLog elapsedRecord)))
        (mkdirFS (w.tmpName (create_process_name blender python))
          (configure_logger w blender python s)) := rfl
  rw [h1] at h ⊢
  obtain ⟨a, s', hx, heq⟩ := mBind_ok_inv h
  rw [heq]
  simp [mState, appendLog]

/-- Witness for the amended C8: in a world where every step succeeds,
`_build` returns normally and the elapsed-time record is in its log. -/
theorem build_elapsed_logged_on_success_witness :
    ((_build wOk bV pV) sInit).1 = Except.ok () ∧
    elapsedRecord ∈ ((_build wOk bV pV) sInit).2.log :=
  ⟨rfl, build_elapsed_logged_on_success wOk bV pV sInit rfl⟩

theorem sep_append_inj {c : Char} : ∀ {l1 l2 r1 r2 : List Char},
    c ∉ l1 → c ∉ l2 → l1 ++ c :: r1 = l2 ++ c :: r2 → l1 = l2 ∧ r1 = r2 := by
  intro l1
  induction l1 with
  | nil =>
    intro l2 r1 r2 h1 h2 h
    cases l2 with
    | nil => simpa using h
    | cons x xs =>
      exfalso
      simp only [List.nil_append, List.cons_append, List.cons.injEq] at h
      apply h2
      rw [← h.1]
      exact List.mem_cons_self c xs
  | cons x xs ih =>
    intro l2 r1 r2 h1 h2 h
    cases l2 with
    | nil =>
      exfalso
      simp only [List.nil_append, List.cons_append, List.cons.injEq] at h
      apply h1
      rw [h.1]
      exact List.mem_cons_self c xs
    | cons y ys =>
      simp only [List.cons_append, List.cons.injEq] at h
      obtain ⟨hxy, hrest⟩ := h
      have hx : c ∉ xs := fun hc => h1 (List.mem_cons_of_mem x hc)
      have hy : c ∉ ys := fun hc => h2 (List.mem_cons_of_mem y hc)
      obtain ⟨he, hr⟩ := ih hx hy hrest
      exact ⟨by rw [hxy, he], hr⟩

theorem bpy_dir_name_inj (b1 p1 b2 p2 : String)
    (hb1 : underscoreFree b1) (hb2 : underscoreFree b2)
    (h : bpy_dir_name b1 p1 = bpy_dir_name b2 p2) : b1 = b2 ∧ p1 = p2 := by
  unfold bpy_dir_name at h
  have hd := congrArg String.data h
  simp only [String.data_append, List.append_assoc] at hd
  have hd2 : b1.data ++ ('_' :: p1.data) = b2.data ++ ('_' :: p2.data) := by
    have := List.append_cancel_left hd
    simpa using this
  obtain ⟨he, hr⟩ := sep_append_inj hb1 hb2 hd2
  exact ⟨String.ext he, String.ext hr⟩

/-- Claim C5: the Build Task's destination artifact path
`<invocation dir>/dist/bpy_<blender>_<python>` is a pure deterministic
function of the version pair: for a fixed invocation directory, two version
pairs map to the same path exactly when they are the same pair (canonical
version strings contain no underscore, so the encoding cannot collide). -/
theorem buildDestPath_deterministic_injective (d b1 p1 b2 p2 : String)
    (hb1 : underscoreFree b1) (hb2 : underscoreFree b2) :
    buildDestPath d b1 p1 = buildDestPath d b2 p2 ↔ (b1 = b2 ∧ p1 = p2) := by
  constructor
  · intro h
    unfold buildDestPath at h
    have hd := congrArg String.data h
    simp only [String.data_append, List.append_assoc] at hd
    have hd2 := List.append_cancel_left (List.append_cancel_left hd)
    exact bpy_dir_name_inj b1 p1 b2 p2 hb1 hb2 (String.ext hd2)
  · rintro ⟨rfl, rfl⟩
    rfl

/-- Witness for C5: distinct Python versions give distinct artifact paths,
and the mapping is decided exactly by pair equality. -/
theorem buildDestPath_deterministic_injective_witness :
    underscoreFree "2.93.0" ∧ underscoreFree "3.9.7" ∧ underscoreFree "3.10.2" ∧
    (buildDestPath "/repo" "2.93.0" "3.9.7" = buildDestPath "/repo" "2.93.0" "3.10.2" ↔
      ("2.93.0" = "2.93.0" ∧ "3.9.7" = "3.10.2")) :=
  ⟨by decide, by decide, by decide,
   buildDestPath_deterministic_injective "/repo" "2.93.0" "3.9.7" "2.93.0" "3.10.2"
     (by decide) (by decide)⟩

theorem buildCollect_length (w : World) (blender : Version) (s : Sys) :
    ∀ (i : Nat) (ps : List Version), (buildCollect w blender s i ps).length = ps.length := by
  intro i ps
  induction ps generalizing i with
  | nil => rfl
  | cons pv rest ih => simp [buildCollect, ih]

theorem buildCollect_getElem (w : World) (blender : Version) (s : Sys) :
    ∀ (start i : Nat) (ps : List Version),
      (buildCollect w blender s start ps)[i]? =
        (ps[i]?).map (fun pv => taskRecord (start + i) blender pv ((_build w blender pv) s).1) := by
  intro start i ps
  induction ps generalizing start i with
  | nil => simp [buildCollect]
  | cons pv rest ih =>
    cases i with
    | zero => simp [buildCollect]
    | succ n =>
      have harith : start + (n + 1) = start + 1 + n := by omega
      simp only [buildCollect, List.getElem?_cons_succ, harith]
      exact ih (start + 1) n

/-- Claim C7: the `build` orchestrator waits for every submitted Build Task
and produces exactly one outcome record per requested Python version; the
record at each index is determined by that task's own outcome alone, so one
task raising an exception neither cancels a sibling task nor prevents the
remaining outcomes from being collected and logged. -/
theorem build_collects_all_outcomes (w : World) (blender : Version)
    (pythons : List Version) (s : Sys) :
    (build w blender pythons s).length = pythons.length ∧
    ∀ i : Nat, (build w blender pythons s)[i]? =
      (pythons[i]?).map (fun pv => taskRecord i blender pv ((_build w blender pv) s).1) := by
  constructor
  · exact buildCollect_length w blender s 0 pythons
  · intro i
    have h := buildCollect_getElem w blender s 0 i pythons
    simpa using h
